import Mathlib

/-!
Verification of the trade-safety gating and automated-execution engine
(backend/ai/auto_trading_controller.py, backend/ai/loss_prevention_ai.py,
backend/services/risk_manager.py), shallowly embedded over exact rational
arithmetic.  Python floats are modelled as `ℚ`; Python's `round(x, 2)`
(round-half-to-even) is modelled by `roundTo2`; dict lookups that can fail
are modelled with `Option`/`Except`.
-/

namespace Brightways

/-- Round-half-to-even to the nearest integer, as Python's builtin `round`
does on the idealised (exact) value. -/
def rne (q : ℚ) : ℤ :=
  if q - ⌊q⌋ < 1/2 then ⌊q⌋
  else if 1/2 < q - ⌊q⌋ then ⌊q⌋ + 1
  else if ⌊q⌋ % 2 = 0 then ⌊q⌋ else ⌊q⌋ + 1

/-- Python's `round(x, 2)`: round to two decimal places, ties to even. -/
def roundTo2 (q : ℚ) : ℚ := (rne (q * 100) : ℚ) / 100

/-! ## Data model (from the source, §ai/loss_prevention_ai.py and
§ai/auto_trading_controller.py) -/

/-- Risk levels returned by `LossPreventionAI._get_risk_level` and used in
decisions ("LOW"/"MEDIUM"/"HIGH"/"CRITICAL"). -/
inductive RiskLevel where
  | low | medium | high | critical
deriving DecidableEq, Repr

/-- Recommendation strings produced by `LossPreventionAI._get_recommendation`
and `_safe_fallback`. -/
inductive Recommendation where
  | stopTradingImmediately
  | pauseTradingUnfavorable
  | waitNotOptimal
  | tradeAggressively
  | tradeNormally
  | tradeCautiously
  | tradeCautiouslyLimitedData
deriving DecidableEq, Repr

/-- Market direction values from the sentiment analyzer; `'UNKNOWN'` is the
default used by `_safe_rejection` and by `decision.get('market_conditions')`. -/
inductive MarketDirection where
  | bullish | bearish | neutral | unknown
deriving DecidableEq, Repr

/-- Status of the optimal trading window
(`sentiment_analysis['optimal_trading_window']['status']`). -/
inductive WindowStatus where
  | optimal | suboptimal | unknown
deriving DecidableEq, Repr

/-- Result dict of `LossPreventionAI.analyze_market_safety`. -/
structure SafetyAnalysis where
  safe_to_trade : Bool
  safety_score : ℚ
  loss_probability : ℚ
  profit_probability : ℚ
  volatility_score : ℚ
  trend_stability : ℚ
  recommendation : Recommendation
  risk_level : RiskLevel
deriving DecidableEq, Repr

/-- The slice of `MarketSentimentAnalyzer.analyze_market_sentiment`'s result
consumed by the controller. -/
structure SentimentAnalysis where
  market_direction : MarketDirection
  overall_sentiment : ℚ
  optimal_trading_window : WindowStatus
deriving DecidableEq, Repr

/-- The `ensemble` entry of `MultiModelPredictor.predict_all_models`'s result;
`contract_type` and `duration` are read with dict defaults, hence `Option`. -/
structure EnsembleInfo where
  confidence : ℚ
  contract_type : Option String
  duration : Option ℕ
deriving DecidableEq, Repr

/-- Result dict of `MultiModelPredictor.predict_all_models` as consumed by the
controller (only the `ensemble` entry is read). -/
structure ModelPredictions where
  ensemble : EnsembleInfo
deriving DecidableEq, Repr

/-- External prediction dict; the controller only reads `confidence`. -/
structure Prediction where
  confidence : ℚ
deriving DecidableEq, Repr

/-- Reasons of the verdicts of `RiskManager.can_place_trade`, passed through
verbatim by the gate's risk-block rejection. -/
inductive RiskReason where
  | balanceNonPositive
  | maxConcurrentReached
  | stakeExceedsMax
  | maxDrawdownReached
  | trailingStopMisconfigured
  | minTradeIntervalNotMet
  | unknown
deriving DecidableEq, Repr

/-- Verdict dict returned by `RiskManager.can_place_trade`. -/
structure RiskCheck where
  allowed : Bool
  reason : RiskReason
deriving DecidableEq, Repr

/-- The trade request dict; the controller reads `amount` (default 1.0) and
`contract_type` (default `'DIGITEVEN'`). -/
structure TradeRequest where
  amount : ℚ
  contract_type : String
deriving DecidableEq, Repr

/-- An entry of `sentiment_analyzer.get_trading_signals()['contracts']`. -/
structure TradingSignal where
  type : Option String
  strength : ℚ
deriving DecidableEq, Repr

/-- The distinct rejection/approval reason strings built by
`_make_trading_decision` and `_safe_rejection`, abstracted as a tag; payloads
keep the data that the corresponding f-string interpolates. -/
inductive Reason where
  | empty
  | manuallyDisabled
  | riskBlock (r : RiskReason)
  | unsafeConditions (rec : Recommendation)
  | lowSafetyScore
  | lossProbabilityTooHigh
  | profitProbabilityTooLow
  | predictionConfidenceTooLow
  | sentimentTooNeutral
  | consecutiveLossProtection (n : ℕ)
  | ensembleConfidenceTooLow
  | suboptimalWindow
  | allChecksPassed
  | analysisFailed
deriving DecidableEq, Repr

/-- `true` exactly on the loss-prevention (unsafe-conditions) rejection. -/
def Reason.isUnsafeConditions : Reason → Bool
  | .unsafeConditions _ => true
  | _ => false

/-- `true` exactly on the consecutive-loss-protection rejection. -/
def Reason.isConsecutiveLossProtection : Reason → Bool
  | .consecutiveLossProtection _ => true
  | _ => false

/-- The `alternative_action` strings of the decision dict, abstracted. -/
inductive AltAction where
  | empty
  | enableTradingToContinue
  | waitForRiskConditions
  | waitForSaferMarket
  | waitForSafetyScore
  | waitForLowerLossProbability
  | waitForHigherProfitProbability
  | waitForHigherConfidence
  | waitForClearerDirection
  | pauseTradingToPreventLosses
  | waitForStrongerAgreement
  | waitForOptimalWindow
  | executeWithRecommendedParameters
  | waitForBetterConditions
deriving DecidableEq, Repr

/-- Result of `_optimize_contract_selection`. -/
structure OptimizedContract where
  contract_type : String
  confidence : ℚ
  duration : ℕ
deriving DecidableEq, Repr

/-- The decision dict produced by `_make_trading_decision` /
`_safe_rejection`; `optimized_contract` is only present on approval. -/
structure Decision where
  execute_trade : Bool
  reason : Reason
  confidence : ℚ
  recommended_stake : ℚ
  alternative_action : AltAction
  safety_score : ℚ
  market_conditions : MarketDirection
  risk_level : RiskLevel
  optimized_contract : Option OptimizedContract
deriving DecidableEq, Repr

/-- `session_stats` of `AutoTradingController`. -/
structure SessionStats where
  trades_executed : ℕ
  trades_prevented : ℕ
  wins : ℕ
  losses : ℕ
  total_profit : ℚ
  max_consecutive_losses : ℕ
  current_consecutive_losses : ℕ
  last_trade_time : Option ℕ
deriving DecidableEq, Repr

/-- The mutable state of `AutoTradingController`: control flags, safety
thresholds, the session stats, and the risk manager's stake cap that
`_calculate_optimal_stake` reads. -/
structure ControllerState where
  is_trading_enabled : Bool
  auto_pause_enabled : Bool
  min_safety_score : ℚ
  min_profit_probability : ℚ
  max_loss_probability : ℚ
  min_confidence : ℚ
  max_stake : ℚ
  stats : SessionStats
deriving DecidableEq, Repr

/-- Fresh `session_stats` dict from `AutoTradingController.__init__`. -/
def initSessionStats : SessionStats :=
  { trades_executed := 0, trades_prevented := 0, wins := 0, losses := 0,
    total_profit := 0, max_consecutive_losses := 0,
    current_consecutive_losses := 0, last_trade_time := none }

/-- `AutoTradingController.__init__` state: trading enabled, auto-pause on,
thresholds 40 / 0.55 / 0.45 / 0.6, and `RiskManager.max_stake` from
`Config.MAX_STAKE` (default `5.0`). -/
def initControllerState : ControllerState :=
  { is_trading_enabled := true, auto_pause_enabled := true,
    min_safety_score := 40, min_profit_probability := 11/20,
    max_loss_probability := 9/20, min_confidence := 3/5,
    max_stake := 5, stats := initSessionStats }

/-! ## LossPreventionAI (loss_prevention_ai.py) -/

/-- `LossPreventionAI._safe_fallback`: the dict returned when feature
extraction yields `None` (fewer than 20 history points) or any exception is
raised during the analysis. -/
def safeFallback : SafetyAnalysis :=
  { safe_to_trade := true, safety_score := 60, loss_probability := 2/5,
    profit_probability := 3/5, volatility_score := 50, trend_stability := 60,
    recommendation := .tradeCautiouslyLimitedData, risk_level := .medium }

/-- `LossPreventionAI._calculate_safety_score`: weighted combination of the
four factors, clamped to [0, 100]. -/
def calculateSafetyScore (loss_prob profit_prob volatility_score trend_stability : ℚ) : ℚ :=
  max 0 (min 100
    ((1 - loss_prob) * 30 + profit_prob * 25 +
      (100 - volatility_score) * 25 + trend_stability * 20))

/-- `LossPreventionAI._should_allow_trading` with the instance thresholds
`loss_threshold = 0.3`, `profit_threshold = 0.7`. -/
def shouldAllowTrading (safety_score loss_prob profit_prob : ℚ) : Bool :=
  if loss_prob > 3/10 then false
  else if profit_prob < 7/10 then false
  else if safety_score < 60 then false
  else true

/-- `LossPreventionAI._get_risk_level`. -/
def getRiskLevel (safety_score : ℚ) : RiskLevel :=
  if safety_score ≥ 80 then .low
  else if safety_score ≥ 60 then .medium
  else if safety_score ≥ 40 then .high
  else .critical

/-- `LossPreventionAI._get_recommendation`. -/
def getRecommendation (safety_score : ℚ) (should_trade : Bool) : Recommendation :=
  if should_trade = false then
    if safety_score < 30 then .stopTradingImmediately
    else if safety_score < 50 then .pauseTradingUnfavorable
    else .waitNotOptimal
  else
    if safety_score > 80 then .tradeAggressively
    else if safety_score > 70 then .tradeNormally
    else .tradeCautiously

/-- Marker for an exception raised inside the safety-analysis pipeline. -/
inductive AnalysisErr where
  | exn
deriving DecidableEq, Repr

/-- The model-derived quantities of `analyze_market_safety` (loss/profit
probabilities from the sklearn predictors, volatility score, trend
stability).  Their numeric computation lives in the excluded ML layer, so
they enter the embedding as inputs. -/
structure SafetyRawInputs where
  loss_prob : ℚ
  profit_prob : ℚ
  volatility_score : ℚ
  trend_stability : ℚ
deriving DecidableEq, Repr

/-- `LossPreventionAI.analyze_market_safety`: the outcome of the upstream
feature/model computation is passed in as `Except AnalysisErr (Option _)`
(`.error` = an exception was raised; `.ok none` = `_extract_safety_features`
returned `None`).  On either failure the function degrades to
`safeFallback`; otherwise it assembles the result dict from the
deterministic scoring helpers exactly as the source does. -/
def analyzeMarketSafety (raw : Except AnalysisErr (Option SafetyRawInputs)) :
    SafetyAnalysis :=
  match raw with
  | .error _ => safeFallback
  | .ok none => safeFallback
  | .ok (some r) =>
      let safety_score :=
        calculateSafetyScore r.loss_prob r.profit_prob r.volatility_score r.trend_stability
      let should_trade := shouldAllowTrading safety_score r.loss_prob r.profit_prob
      { safe_to_trade := should_trade,
        safety_score := safety_score,
        loss_probability := r.loss_prob,
        profit_probability := r.profit_prob,
        volatility_score := r.volatility_score,
        trend_stability := r.trend_stability,
        recommendation := getRecommendation safety_score should_trade,
        risk_level := getRiskLevel safety_score }

/-! ## AutoTradingController (auto_trading_controller.py) -/

/-- `AutoTradingController._calculate_optimal_stake`: the requested stake
scaled by four bounded multipliers, capped at `max_stake`, floored at 0.5,
and rounded to 2 decimals. -/
def calculateOptimalStake (max_stake : ℚ) (safety : SafetyAnalysis)
    (sentiment : SentimentAnalysis) (prediction : Prediction)
    (req : TradeRequest) : ℚ :=
  let base_stake := req.amount
  let safety_score := safety.safety_score / 100
  let safety_multiplier := 1/2 + safety_score * (3/2)
  let confidence_multiplier := 1/2 + prediction.confidence * (3/2)
  let sentiment_strength := |sentiment.overall_sentiment|
  let sentiment_multiplier := 4/5 + sentiment_strength * (2/5)
  let profit_multiplier := 3/5 + safety.profit_probability * (4/5)
  let optimal_stake := base_stake * safety_multiplier * confidence_multiplier *
    sentiment_multiplier * profit_multiplier
  let optimal_stake := min optimal_stake max_stake
  let optimal_stake := max optimal_stake (1/2)
  roundTo2 optimal_stake

/-- `AutoTradingController._calculate_combined_confidence`. -/
def calculateCombinedConfidence (safety : SafetyAnalysis)
    (sentiment : SentimentAnalysis) (prediction : Prediction)
    (ensemble_confidence : ℚ) : ℚ :=
  let safety_confidence := safety.safety_score / 100
  let sentiment_confidence := |sentiment.overall_sentiment|
  let prediction_confidence := prediction.confidence
  min 1 (safety_confidence * (3/10) + sentiment_confidence * (1/5) +
    prediction_confidence * (3/10) + ensemble_confidence * (1/5))

/-- `AutoTradingController._optimize_contract_selection`. -/
def optimizeContractSelection (models : ModelPredictions)
    (signals : List TradingSignal) (req : TradeRequest) : OptimizedContract :=
  let current_contract := req.contract_type
  let ensemble := models.ensemble
  let recommended_contract := ensemble.contract_type.getD current_contract
  let best : String × ℚ := (current_contract, 1/2)
  let best := if ensemble.confidence > best.2
    then (recommended_contract, ensemble.confidence) else best
  let best := signals.foldl
    (fun b s => if s.strength > b.2 then (s.type.getD current_contract, s.strength) else b)
    best
  { contract_type := best.1, confidence := best.2,
    duration := ensemble.duration.getD 5 }

/-- The decision dict as initialised at the top of `_make_trading_decision`,
specialised with the reason / alternative action a rejecting branch fills
in before returning. -/
def baseDecision (safety : SafetyAnalysis) (sentiment : SentimentAnalysis)
    (r : Reason) (a : AltAction) : Decision :=
  { execute_trade := false, reason := r, confidence := 0,
    recommended_stake := 0, alternative_action := a,
    safety_score := safety.safety_score,
    market_conditions := sentiment.market_direction,
    risk_level := safety.risk_level,
    optimized_contract := none }

/-- `AutoTradingController._make_trading_decision`: the ordered gate.  The
Python method mutates `self.session_stats` in its unsafe-conditions branch,
so the embedding returns the decision together with the updated controller
state. -/
def makeTradingDecision (c : ControllerState) (safety : SafetyAnalysis)
    (sentiment : SentimentAnalysis) (models : ModelPredictions)
    (prediction : Prediction) (risk : RiskCheck) (req : TradeRequest)
    (signals : List TradingSignal) : Decision × ControllerState :=
  if c.is_trading_enabled = false then
    (baseDecision safety sentiment .manuallyDisabled .enableTradingToContinue, c)
  else if risk.allowed = false then
    (baseDecision safety sentiment (.riskBlock risk.reason) .waitForRiskConditions, c)
  else if safety.safe_to_trade = false then
    (baseDecision safety sentiment (.unsafeConditions safety.recommendation)
       .waitForSaferMarket,
     { c with stats :=
        { c.stats with trades_prevented := c.stats.trades_prevented + 1 } })
  else if safety.safety_score < c.min_safety_score then
    (baseDecision safety sentiment .lowSafetyScore .waitForSafetyScore, c)
  else if safety.loss_probability > c.max_loss_probability then
    (baseDecision safety sentiment .lossProbabilityTooHigh
       .waitForLowerLossProbability, c)
  else if safety.profit_probability < c.min_profit_probability then
    (baseDecision safety sentiment .profitProbabilityTooLow
       .waitForHigherProfitProbability, c)
  else if prediction.confidence < c.min_confidence then
    (baseDecision safety sentiment .predictionConfidenceTooLow
       .waitForHigherConfidence, c)
  else if sentiment.market_direction = .neutral ∧ |sentiment.overall_sentiment| < 1/10 then
    (baseDecision safety sentiment .sentimentTooNeutral
       .waitForClearerDirection, c)
  else if c.stats.current_consecutive_losses ≥ 3 then
    (baseDecision safety sentiment
       (.consecutiveLossProtection c.stats.current_consecutive_losses)
       .pauseTradingToPreventLosses, c)
  else if models.ensemble.confidence < 7/10 then
    (baseDecision safety sentiment .ensembleConfidenceTooLow
       .waitForStrongerAgreement, c)
  else if sentiment.optimal_trading_window = .suboptimal then
    (baseDecision safety sentiment .suboptimalWindow .waitForOptimalWindow, c)
  else
    ({ execute_trade := true,
       reason := .allChecksPassed,
       confidence := calculateCombinedConfidence safety sentiment prediction
         models.ensemble.confidence,
       recommended_stake := calculateOptimalStake c.max_stake safety sentiment
         prediction req,
       alternative_action := .executeWithRecommendedParameters,
       safety_score := safety.safety_score,
       market_conditions := sentiment.market_direction,
       risk_level := safety.risk_level,
       optimized_contract := some (optimizeContractSelection models signals req) },
     c)

/-- `AutoTradingController._update_session_stats` (`now` stands for
`datetime.now()`). -/
def updateSessionStats (c : ControllerState) (d : Decision) (now : ℕ) :
    ControllerState :=
  if d.execute_trade then
    { c with stats :=
        { c.stats with trades_executed := c.stats.trades_executed + 1,
                       last_trade_time := some now } }
  else
    { c with stats :=
        { c.stats with trades_prevented := c.stats.trades_prevented + 1 } }

/-- `AutoTradingController._safe_rejection`. -/
def safeRejection (r : Reason) : Decision :=
  { execute_trade := false, reason := r, confidence := 0,
    recommended_stake := 0, alternative_action := .waitForBetterConditions,
    safety_score := 0, market_conditions := .unknown,
    risk_level := .critical, optimized_contract := none }

/-- The analyses gathered by steps 1–4 of `should_execute_trade` before the
decision is made. -/
structure PipelineInputs where
  safety : SafetyAnalysis
  sentiment : SentimentAnalysis
  models : ModelPredictions
  risk : RiskCheck
  signals : List TradingSignal
deriving Repr

/-- `AutoTradingController.should_execute_trade`: the whole body runs under
`try/except`; `pipeline` is the outcome of the analysis steps (`.error` = an
exception was raised anywhere inside the `try`).  On success the decision is
made and the session stats updated; on exception the method returns
`_safe_rejection("Analysis failed - safety first")` without touching the
stats. -/
def shouldExecuteTrade (c : ControllerState)
    (pipeline : Except AnalysisErr PipelineInputs) (prediction : Prediction)
    (req : TradeRequest) (now : ℕ) : Decision × ControllerState :=
  match pipeline with
  | .error _ => (safeRejection .analysisFailed, c)
  | .ok p =>
      let dc := makeTradingDecision c p.safety p.sentiment p.models prediction
        p.risk req p.signals
      (dc.1, updateSessionStats dc.2 dc.1 now)

/-- `AutoTradingController.pause_trading`. -/
def pauseTrading (c : ControllerState) : ControllerState :=
  { c with is_trading_enabled := false }

/-- Trade outcome strings fed to `record_trade_outcome` (`'win'`, `'loss'`,
anything else). -/
inductive Outcome where
  | win | loss | other
deriving DecidableEq, Repr

/-- `AutoTradingController.record_trade_outcome`: updates the win/loss
streak counters, then auto-pauses once `current_consecutive_losses >= 5`
with auto-pause enabled. -/
def recordTradeOutcome (c : ControllerState) (outcome : Outcome) (pnl : ℚ) :
    ControllerState :=
  let c1 :=
    match outcome with
    | .win =>
        { c with stats :=
            { c.stats with wins := c.stats.wins + 1,
                           current_consecutive_losses := 0,
                           total_profit := c.stats.total_profit + pnl } }
    | .loss =>
        { c with stats :=
            { c.stats with losses := c.stats.losses + 1,
                           current_consecutive_losses :=
                             c.stats.current_consecutive_losses + 1,
                           max_consecutive_losses :=
                             max c.stats.max_consecutive_losses
                               (c.stats.current_consecutive_losses + 1),
                           total_profit := c.stats.total_profit + pnl } }
    | .other => c
  if c1.auto_pause_enabled = true ∧ c1.stats.current_consecutive_losses ≥ 5 then
    pauseTrading c1
  else
    c1

/-! ## RiskManager (services/risk_manager.py) -/

/-- Python runtime errors surfaced by the embedding. -/
inductive PyErr where
  | keyError (key : String)
deriving DecidableEq, Repr

namespace RiskManager

/-- A position dict as created by `RiskManager.add_position`. -/
structure Position where
  contract_id : String
  initial_stake : ℚ
  current_stake : ℚ
  entry_price : ℚ
  contract_type : String
  initial_pnl : ℚ
  prediction : String
  entry_time : ℕ
  stop_loss : ℚ
  take_profit : ℚ
deriving DecidableEq, Repr

/-- The `daily_stats` dict of `RiskManager` (keys as set by `__init__`). -/
structure DailyStats where
  trades : ℕ
  wins : ℕ
  losses : ℕ
  total_pnl : ℚ
  max_drawdown : ℚ
  highest_balance : ℚ
  daily_start_balance : ℚ
deriving DecidableEq, Repr

/-- Dict-style lookup on `daily_stats`: `some` for the keys the dict holds,
`none` (a `KeyError` at the call site) for anything else.  No code path ever
stores a `'win_rate'` key in `daily_stats`. -/
def DailyStats.lookup (d : DailyStats) (k : String) : Option ℚ :=
  if k = "trades" then some d.trades
  else if k = "wins" then some d.wins
  else if k = "losses" then some d.losses
  else if k = "total_pnl" then some d.total_pnl
  else if k = "max_drawdown" then some d.max_drawdown
  else if k = "highest_balance" then some d.highest_balance
  else if k = "daily_start_balance" then some d.daily_start_balance
  else none

/-- `RiskManager`'s state: open positions, daily statistics, and the
configuration limits read from `Config`. -/
structure RiskState where
  positions : List (String × Position)
  daily : DailyStats
  session_start_balance : ℚ
  max_concurrent_trades : ℕ
  max_stake : ℚ
  stop_loss_percent : ℚ
  trailing_stop_loss_percent : ℚ
  take_profit_percent : ℚ
  max_drawdown_percent : ℚ
deriving DecidableEq, Repr

/-- `RiskManager.__init__` with the `Config` defaults
(`MAX_STAKE=5.0`, `STOP_LOSS_PERCENT=5`, `TRAILING_STOP_LOSS_PERCENT=2`,
`TAKE_PROFIT_PERCENT=10`, `MAX_DRAWDOWN_PERCENT=20`,
`MAX_CONCURRENT_TRADES=3`). -/
def initRiskState : RiskState :=
  { positions := [],
    daily := { trades := 0, wins := 0, losses := 0, total_pnl := 0,
               max_drawdown := 0, highest_balance := 10000,
               daily_start_balance := 10000 },
    session_start_balance := 10000,
    max_concurrent_trades := 3, max_stake := 5,
    stop_loss_percent := 5, trailing_stop_loss_percent := 2,
    take_profit_percent := 10, max_drawdown_percent := 20 }

/-- `RiskManager._calculate_drawdown`. -/
def calculateDrawdown (d : DailyStats) : ℚ :=
  if d.trades = 0 then 0
  else
    let peak_balance := d.daily_start_balance
    let current_balance := d.daily_start_balance + d.total_pnl
    let peak_balance :=
      if current_balance > peak_balance then current_balance else peak_balance
    if peak_balance = 0 then 0
    else max 0 ((peak_balance - current_balance) / peak_balance * 100)

/-- `RiskManager._calculate_stop_loss`. -/
def calculateStopLoss (stop_loss_percent entry_price stake : ℚ) : ℚ :=
  entry_price - stake * (stop_loss_percent / 100)

/-- `RiskManager._calculate_take_profit`. -/
def calculateTakeProfit (take_profit_percent entry_price stake : ℚ) : ℚ :=
  entry_price + stake * (take_profit_percent / 100)

/-- `RiskManager.add_position` (dict assignment: replaces an existing entry
with the same `contract_id`, otherwise adds one; `now` stands for
`time.time()`). -/
def addPosition (s : RiskState) (contract_id : String) (stake entry_price : ℚ)
    (contract_type prediction : String) (now : ℕ) : RiskState :=
  let p : Position :=
    { contract_id := contract_id, initial_stake := stake,
      current_stake := stake, entry_price := entry_price,
      contract_type := contract_type, initial_pnl := s.daily.total_pnl,
      prediction := prediction, entry_time := now,
      stop_loss := calculateStopLoss s.stop_loss_percent entry_price stake,
      take_profit := calculateTakeProfit s.take_profit_percent entry_price stake }
  if s.positions.any (fun e => e.1 = contract_id) then
    { s with positions :=
        s.positions.map (fun e => if e.1 = contract_id then (contract_id, p) else e) }
  else
    { s with positions := (contract_id, p) :: s.positions }

/-- `RiskManager.close_position`: folds the PnL into the daily statistics,
ratchets `highest_balance` and `max_drawdown`, and removes the position;
a no-op when `contract_id` is not an open position. -/
def closePosition (s : RiskState) (contract_id : String) (pnl : ℚ)
    (_status : String) : RiskState :=
  if s.positions.any (fun e => e.1 = contract_id) then
    let d := s.daily
    let d := { d with trades := d.trades + 1, total_pnl := d.total_pnl + pnl,
                      wins := if pnl > 0 then d.wins + 1 else d.wins,
                      losses := if pnl > 0 then d.losses else d.losses + 1 }
    let current_balance := d.daily_start_balance + d.total_pnl
    let d := { d with highest_balance := max d.highest_balance current_balance }
    let current_drawdown := calculateDrawdown d
    let d := { d with max_drawdown := max d.max_drawdown current_drawdown }
    { s with daily := d,
             positions := s.positions.filter (fun e => ¬ e.1 = contract_id) }
  else s

/-- `RiskManager.calculate_optimal_stake`: reads
`self.daily_stats['win_rate']`, a key that `daily_stats` never contains, so
the lookup fails (a `KeyError` in Python) before anything is returned. -/
def calculateOptimalStake (s : RiskState) (confidence : ℚ) (volatility : ℚ) :
    Except PyErr ℚ :=
  let base_stake : ℚ := 1
  let confidence_multiplier := min (confidence * 2) 3
  match s.daily.lookup "win_rate" with
  | none => .error (.keyError "win_rate")
  | some win_rate =>
      let confidence_multiplier := confidence_multiplier * (1 + win_rate / 100)
      let volatility_multiplier := max (1/2) (1 / volatility)
      let optimal_stake := base_stake * confidence_multiplier * volatility_multiplier
      .ok (min optimal_stake s.max_stake)

/-- The `RiskManager` states reachable through the position-lifecycle
operations that drive the daily P&L statistics: the freshly constructed
manager, adding a position, and closing one with an arbitrary realised
PnL. -/
inductive Reachable : RiskState → Prop where
  | init : Reachable initRiskState
  | add (s : RiskState) (contract_id : String) (stake entry_price : ℚ)
      (contract_type prediction : String) (now : ℕ) :
      Reachable s →
      Reachable (addPosition s contract_id stake entry_price contract_type prediction now)
  | close (s : RiskState) (contract_id : String) (pnl : ℚ) (status : String) :
      Reachable s → Reachable (closePosition s contract_id pnl status)

end RiskManager

/-! ## Derived definitions used by the claim statements -/

/-- A controller state with three consecutive losses on record. -/
def threeLossState : ControllerState :=
  { initControllerState with stats :=
      { initSessionStats with current_consecutive_losses := 3 } }

/-- The drawdown formula as the spec states it:
`max(0, (peakBalance − currentBalance)/peakBalance × 100)` with
`peakBalance = max(dailyStartBalance, dailyStartBalance + totalPnl)`. -/
def drawdownSpec (d : RiskManager.DailyStats) : ℚ :=
  let peak := max d.daily_start_balance (d.daily_start_balance + d.total_pnl)
  max 0 ((peak - (d.daily_start_balance + d.total_pnl)) / peak * 100)

/-- The recommended-stake formula as the spec states it: requested stake
times the four bounded multipliers, clamped into `[0.5, maxStake]`
(lower bound first, then the cap), rounded to 2 decimals. -/
def recommendedStakeSpec (max_stake : ℚ) (safety : SafetyAnalysis)
    (sentiment : SentimentAnalysis) (prediction : Prediction)
    (req : TradeRequest) : ℚ :=
  roundTo2 (min (max (req.amount * (1/2 + safety.safety_score / 100 * (3/2)) *
    (1/2 + prediction.confidence * (3/2)) *
    (4/5 + |sentiment.overall_sentiment| * (2/5)) *
    (3/5 + safety.profit_probability * (4/5))) (1/2)) max_stake)

/-! ## Rounding lemmas -/

lemma floor_le_rne (q : ℚ) : ⌊q⌋ ≤ rne q := by
  unfold rne; split_ifs <;> omega

lemma rne_le_floor_add_one (q : ℚ) : rne q ≤ ⌊q⌋ + 1 := by
  unfold rne; split_ifs <;> omega

lemma int_le_rne {n : ℤ} {q : ℚ} (h : (n : ℚ) ≤ q) : n ≤ rne q :=
  le_trans (Int.le_floor.mpr h) (floor_le_rne q)

lemma rne_le_int {n : ℤ} {q : ℚ} (h : q ≤ (n : ℚ)) : rne q ≤ n := by
  have hfl : ⌊q⌋ ≤ n := by
    have := Int.floor_le_floor h
    simpa using this
  rcases lt_or_eq_of_le hfl with hlt | heq
  · exact le_trans (rne_le_floor_add_one q) (by omega)
  · have hq : (n : ℚ) ≤ q := by
      rw [← heq]; exact Int.floor_le q
    have hqe : q = (n : ℚ) := le_antisymm h hq
    subst hqe
    unfold rne
    simp

lemma rne_mono {a b : ℚ} (h : a ≤ b) : rne a ≤ rne b := by
  have hfl : ⌊a⌋ ≤ ⌊b⌋ := Int.floor_le_floor h
  rcases lt_or_eq_of_le hfl with hlt | heq
  · calc rne a ≤ ⌊a⌋ + 1 := rne_le_floor_add_one a
      _ ≤ ⌊b⌋ := by omega
      _ ≤ rne b := floor_le_rne b
  · have hfa : (⌊a⌋ : ℚ) ≤ a := Int.floor_le a
    have hfb : (⌊b⌋ : ℚ) ≤ b := Int.floor_le b
    unfold rne
    rw [heq]
    have hra : a - ⌊b⌋ ≤ b - ⌊b⌋ := by linarith
    split_ifs with h1 h2 h3 h4 h5 h6 h7 h8 h9 <;> try omega
    all_goals linarith

lemma roundTo2_mono {a b : ℚ} (h : a ≤ b) : roundTo2 a ≤ roundTo2 b := by
  unfold roundTo2
  have h1 : rne (a * 100) ≤ rne (b * 100) :=
    rne_mono (by linarith)
  have h2 : ((rne (a * 100) : ℤ) : ℚ) ≤ ((rne (b * 100) : ℤ) : ℚ) := by
    exact_mod_cast h1
  linarith

lemma roundTo2_le_hundredths {n : ℤ} {q : ℚ} (h : q ≤ (n : ℚ) / 100) :
    roundTo2 q ≤ (n : ℚ) / 100 := by
  unfold roundTo2
  have hq : q * 100 ≤ (n : ℚ) := by linarith
  have h1 : rne (q * 100) ≤ n := rne_le_int hq
  have h2 : ((rne (q * 100) : ℤ) : ℚ) ≤ (n : ℚ) := by exact_mod_cast h1
  linarith

lemma hundredths_le_roundTo2 {n : ℤ} {q : ℚ} (h : (n : ℚ) / 100 ≤ q) :
    (n : ℚ) / 100 ≤ roundTo2 q := by
  unfold roundTo2
  have hq : (n : ℚ) ≤ q * 100 := by linarith
  have h1 : n ≤ rne (q * 100) := int_le_rne hq
  have h2 : (n : ℚ) ≤ ((rne (q * 100) : ℤ) : ℚ) := by exact_mod_cast h1
  linarith

/-! ## Claim theorems -/

/-- C1: for every signal snapshot whose `safe_to_trade` field is false, the
trade-gate evaluation (`_make_trading_decision`) returns a decision with
`execute_trade = false`; it never approves. -/
theorem unsafe_snapshot_never_approved
    (c : ControllerState) (safety : SafetyAnalysis) (sentiment : SentimentAnalysis)
    (models : ModelPredictions) (prediction : Prediction) (risk : RiskCheck)
    (req : TradeRequest) (signals : List TradingSignal)
    (h : safety.safe_to_trade = false) :
    (makeTradingDecision c safety sentiment models prediction risk req
      signals).1.execute_trade = false := by
  unfold makeTradingDecision
  split_ifs <;> simp_all [baseDecision]

/-- C1 witness: a concrete unsafe snapshot is rejected. -/
theorem unsafe_snapshot_never_approved_witness :
    ({ safeFallback with safe_to_trade := false } : SafetyAnalysis).safe_to_trade = false ∧
    (makeTradingDecision initControllerState
      { safeFallback with safe_to_trade := false }
      { market_direction := .bullish, overall_sentiment := 2/5,
        optimal_trading_window := .optimal }
      { ensemble := { confidence := 17/20, contract_type := none, duration := none } }
      { confidence := 9/10 } { allowed := true, reason := .unknown }
      { amount := 1, contract_type := "DIGITEVEN" } []).1.execute_trade = false :=
  ⟨rfl, unsafe_snapshot_never_approved _ _ _ _ _ _ _ _ rfl⟩

/-- C2 counterexample: the fallback snapshot that `analyze_market_safety`
degrades to on failure has `safe_to_trade = true`, not `false` as claimed. -/
theorem fallback_marked_safe_cex :
    (analyzeMarketSafety (Except.error AnalysisErr.exn)).safe_to_trade = true := rfl

/-- C2 (amended): when the upstream analysis raises or has insufficient data
(`_extract_safety_features` returns `None`), `analyze_market_safety` degrades
to the fixed fallback snapshot, which is clearly marked (recommendation
`TRADE_CAUTIOUSLY - Limited data available`, risk level `MEDIUM`, safety
score 60) but sets `safe_to_trade = true`, i.e. it is treated as safe enough
for cautious trading. -/
theorem fallback_is_marked_but_treated_safe (e : AnalysisErr) :
    analyzeMarketSafety (Except.error e) = safeFallback ∧
    analyzeMarketSafety (Except.ok none) = safeFallback ∧
    safeFallback.safe_to_trade = true ∧
    safeFallback.recommendation = .tradeCautiouslyLimitedData ∧
    safeFallback.risk_level = .medium ∧
    safeFallback.safety_score = 60 := by
  cases e
  exact ⟨rfl, rfl, rfl, rfl, rfl, rfl⟩

/-- C3: whenever an internal exception is raised during trade evaluation,
`should_execute_trade` catches it and returns the fully-rejecting decision
(`execute_trade = false`, confidence 0, recommended stake 0, risk level
CRITICAL, the analysis-failed reason), leaving the controller state
untouched, instead of propagating the exception. -/
theorem exception_yields_safe_rejection (c : ControllerState) (e : AnalysisErr)
    (prediction : Prediction) (req : TradeRequest) (now : ℕ) :
    (shouldExecuteTrade c (.error e) prediction req now).1.execute_trade = false ∧
    (shouldExecuteTrade c (.error e) prediction req now).1.confidence = 0 ∧
    (shouldExecuteTrade c (.error e) prediction req now).1.recommended_stake = 0 ∧
    (shouldExecuteTrade c (.error e) prediction req now).1.risk_level = .critical ∧
    (shouldExecuteTrade c (.error e) prediction req now).1.reason = .analysisFailed ∧
    (shouldExecuteTrade c (.error e) prediction req now).1 = safeRejection .analysisFailed ∧
    (shouldExecuteTrade c (.error e) prediction req now).2 = c :=
  ⟨rfl, rfl, rfl, rfl, rfl, rfl, rfl⟩

/-- C9: `RiskManager.calculate_optimal_stake` reads the key `'win_rate'`
from `daily_stats`, which never contains it, so every call raises a
`KeyError` instead of returning a clamped stake. -/
theorem riskmanager_stake_always_raises (s : RiskManager.RiskState)
    (confidence volatility : ℚ) :
    RiskManager.calculateOptimalStake s confidence volatility
      = .error (.keyError "win_rate") := rfl

/-- C4 counterexample: with `current_consecutive_losses = 3` but the risk
check failing, the decision's reason is the risk-management block, not
consecutive-loss protection — the claim's "for every proposal" fails. -/
theorem consecutive_loss_reason_cex :
    threeLossState.stats.current_consecutive_losses ≥ 3 ∧
    (makeTradingDecision threeLossState safeFallback
      { market_direction := .bullish, overall_sentiment := 2/5,
        optimal_trading_window := .optimal }
      { ensemble := { confidence := 17/20, contract_type := none, duration := none } }
      { confidence := 9/10 } { allowed := false, reason := .maxDrawdownReached }
      { amount := 1, contract_type := "DIGITEVEN" } []).1.reason
        = .riskBlock .maxDrawdownReached ∧
    (makeTradingDecision threeLossState safeFallback
      { market_direction := .bullish, overall_sentiment := 2/5,
        optimal_trading_window := .optimal }
      { ensemble := { confidence := 17/20, contract_type := none, duration := none } }
      { confidence := 9/10 } { allowed := false, reason := .maxDrawdownReached }
      { amount := 1, contract_type := "DIGITEVEN" } []).1.reason.isConsecutiveLossProtection
        = false :=
  ⟨by norm_num [threeLossState, initSessionStats], rfl, rfl⟩

/-- C4 (amended): for every proposal evaluated while
`current_consecutive_losses >= 3` on which all earlier gates pass (trading
enabled, risk check allowed, snapshot safe, safety score, loss probability,
profit probability, prediction confidence, and sentiment checks), the
returned decision's reason is the consecutive-loss-protection rejection and
the trade is not approved; since no hypothesis on the ensemble confidence or
the trading window is needed, the gate is evaluated before the
ensemble-confidence and trading-window gates. -/
theorem consecutive_loss_gate_order
    (c : ControllerState) (safety : SafetyAnalysis) (sentiment : SentimentAnalysis)
    (models : ModelPredictions) (prediction : Prediction) (risk : RiskCheck)
    (req : TradeRequest) (signals : List TradingSignal)
    (h1 : c.is_trading_enabled = true) (h2 : risk.allowed = true)
    (h3 : safety.safe_to_trade = true)
    (h4 : ¬ safety.safety_score < c.min_safety_score)
    (h5 : ¬ safety.loss_probability > c.max_loss_probability)
    (h6 : ¬ safety.profit_probability < c.min_profit_probability)
    (h7 : ¬ prediction.confidence < c.min_confidence)
    (h8 : ¬ (sentiment.market_direction = .neutral ∧
      |sentiment.overall_sentiment| < 1/10))
    (h9 : c.stats.current_consecutive_losses ≥ 3) :
    (makeTradingDecision c safety sentiment models prediction risk req
        signals).1.reason
      = .consecutiveLossProtection c.stats.current_consecutive_losses ∧
    (makeTradingDecision c safety sentiment models prediction risk req
        signals).1.execute_trade = false := by
  unfold makeTradingDecision
  split_ifs <;> simp_all [baseDecision]

/-- C4 witness: a concrete state with three consecutive losses and all
earlier gates passing is rejected for consecutive-loss protection even
though the ensemble confidence (0) would also fail its own later gate. -/
theorem consecutive_loss_gate_order_witness :
    threeLossState.is_trading_enabled = true ∧
    threeLossState.stats.current_consecutive_losses ≥ 3 ∧
    (makeTradingDecision threeLossState
      { safe_to_trade := true, safety_score := 75, loss_probability := 1/5,
        profit_probability := 4/5, volatility_score := 30, trend_stability := 70,
        recommendation := .tradeNormally, risk_level := .medium }
      { market_direction := .bullish, overall_sentiment := 2/5,
        optimal_trading_window := .optimal }
      { ensemble := { confidence := 0, contract_type := none, duration := none } }
      { confidence := 9/10 } { allowed := true, reason := .unknown }
      { amount := 1, contract_type := "DIGITEVEN" } []).1.reason
        = .consecutiveLossProtection 3 := by
  refine ⟨rfl, by norm_num [threeLossState, initSessionStats], ?_⟩
  exact (consecutive_loss_gate_order _ _ _ _ _ _ _ _ rfl rfl rfl
    (by norm_num [threeLossState, initControllerState])
    (by norm_num [threeLossState, initControllerState])
    (by norm_num [threeLossState, initControllerState])
    (by norm_num [threeLossState, initControllerState])
    (by decide)
    (by norm_num [threeLossState, initSessionStats])).1

/-- C8: starting from a state with zero consecutive losses, auto-pause
enabled and trading enabled, five consecutive loss outcomes recorded via
`record_trade_outcome` leave trading enabled after each of the first four
calls and disable trading exactly after the fifth. -/
theorem autopause_exactly_after_fifth_loss
    (c : ControllerState) (p1 p2 p3 p4 p5 : ℚ)
    (h0 : c.stats.current_consecutive_losses = 0)
    (hap : c.auto_pause_enabled = true)
    (hen : c.is_trading_enabled = true) :
    (recordTradeOutcome c .loss p1).is_trading_enabled = true ∧
    (recordTradeOutcome (recordTradeOutcome c .loss p1) .loss p2).is_trading_enabled = true ∧
    (recordTradeOutcome (recordTradeOutcome (recordTradeOutcome c .loss p1)
      .loss p2) .loss p3).is_trading_enabled = true ∧
    (recordTradeOutcome (recordTradeOutcome (recordTradeOutcome
      (recordTradeOutcome c .loss p1) .loss p2) .loss p3) .loss p4).is_trading_enabled = true ∧
    (recordTradeOutcome (recordTradeOutcome (recordTradeOutcome
      (recordTradeOutcome (recordTradeOutcome c .loss p1) .loss p2) .loss p3)
      .loss p4) .loss p5).is_trading_enabled = false := by
  simp [recordTradeOutcome, pauseTrading, h0, hap, hen]

/-- C8 witness: the freshly constructed controller is paused exactly at the
fifth recorded loss. -/
theorem autopause_exactly_after_fifth_loss_witness :
    initControllerState.stats.current_consecutive_losses = 0 ∧
    initControllerState.auto_pause_enabled = true ∧
    initControllerState.is_trading_enabled = true ∧
    ((recordTradeOutcome (recordTradeOutcome (recordTradeOutcome
      (recordTradeOutcome initControllerState .loss (-1)) .loss (-1)) .loss (-1))
      .loss (-1)).is_trading_enabled = true ∧
     (recordTradeOutcome (recordTradeOutcome (recordTradeOutcome
      (recordTradeOutcome (recordTradeOutcome initControllerState .loss (-1))
      .loss (-1)) .loss (-1)) .loss (-1)) .loss (-1)).is_trading_enabled = false) :=
  ⟨rfl, rfl, rfl,
    (autopause_exactly_after_fifth_loss initControllerState (-1) (-1) (-1) (-1) (-1)
      rfl rfl rfl).2.2.2.1,
    (autopause_exactly_after_fifth_loss initControllerState (-1) (-1) (-1) (-1) (-1)
      rfl rfl rfl).2.2.2.2⟩

/-- The gate bumps `trades_prevented` inside its own unsafe-conditions
branch and leaves the controller state alone everywhere else; only that
branch carries the unsafe-conditions reason (and it never approves). -/
lemma makeTradingDecision_stats_characterization
    (c : ControllerState) (safety : SafetyAnalysis) (sentiment : SentimentAnalysis)
    (models : ModelPredictions) (prediction : Prediction) (risk : RiskCheck)
    (req : TradeRequest) (signals : List TradingSignal)
    (d : Decision) (c' : ControllerState)
    (h : makeTradingDecision c safety sentiment models prediction risk req signals
      = (d, c')) :
    (d.reason.isUnsafeConditions = true →
      d.execute_trade = false ∧
      c' = { c with stats :=
          { c.stats with trades_prevented := c.stats.trades_prevented + 1 } }) ∧
    (d.reason.isUnsafeConditions = false → c' = c) := by
  unfold makeTradingDecision at h
  by_cases g1 : c.is_trading_enabled = false
  · rw [if_pos g1] at h
    injection h with h1 h2; subst h1; subst h2
    simp [baseDecision, Reason.isUnsafeConditions]
  · rw [if_neg g1] at h
    by_cases g2 : risk.allowed = false
    · rw [if_pos g2] at h
      injection h with h1 h2; subst h1; subst h2
      simp [baseDecision, Reason.isUnsafeConditions]
    · rw [if_neg g2] at h
      by_cases g3 : safety.safe_to_trade = false
      · rw [if_pos g3] at h
        injection h with h1 h2; subst h1; subst h2
        simp [baseDecision, Reason.isUnsafeConditions]
      · rw [if_neg g3] at h
        by_cases g4 : safety.safety_score < c.min_safety_score
        · rw [if_pos g4] at h
          injection h with h1 h2; subst h1; subst h2
          simp [baseDecision, Reason.isUnsafeConditions]
        · rw [if_neg g4] at h
          by_cases g5 : safety.loss_probability > c.max_loss_probability
          · rw [if_pos g5] at h
            injection h with h1 h2; subst h1; subst h2
            simp [baseDecision, Reason.isUnsafeConditions]
          · rw [if_neg g5] at h
            by_cases g6 : safety.profit_probability < c.min_profit_probability
            · rw [if_pos g6] at h
              injection h with h1 h2; subst h1; subst h2
              simp [baseDecision, Reason.isUnsafeConditions]
            · rw [if_neg g6] at h
              by_cases g7 : prediction.confidence < c.min_confidence
              · rw [if_pos g7] at h
                injection h with h1 h2; subst h1; subst h2
                simp [baseDecision, Reason.isUnsafeConditions]
              · rw [if_neg g7] at h
                by_cases g8 : sentiment.market_direction = .neutral ∧
                    |sentiment.overall_sentiment| < 1/10
                · rw [if_pos g8] at h
                  injection h with h1 h2; subst h1; subst h2
                  simp [baseDecision, Reason.isUnsafeConditions]
                · rw [if_neg g8] at h
                  by_cases g9 : c.stats.current_consecutive_losses ≥ 3
                  · rw [if_pos g9] at h
                    injection h with h1 h2; subst h1; subst h2
                    simp [baseDecision, Reason.isUnsafeConditions]
                  · rw [if_neg g9] at h
                    by_cases g10 : models.ensemble.confidence < 7/10
                    · rw [if_pos g10] at h
                      injection h with h1 h2; subst h1; subst h2
                      simp [baseDecision, Reason.isUnsafeConditions]
                    · rw [if_neg g10] at h
                      by_cases g11 : sentiment.optimal_trading_window = WindowStatus.suboptimal
                      · rw [if_pos g11] at h
                        injection h with h1 h2; subst h1; subst h2
                        simp [baseDecision, Reason.isUnsafeConditions]
                      · rw [if_neg g11] at h
                        injection h with h1 h2; subst h1; subst h2
                        simp [Reason.isUnsafeConditions]

/-- C10: a rejection from the unsafe-conditions gate branch increments
`trades_prevented` by exactly 2 (once in the branch, once in the shared
post-evaluation stats update), while every other rejection produced by
`_make_trading_decision` increments it by exactly 1. -/
theorem unsafe_rejection_double_counts
    (c : ControllerState) (safety : SafetyAnalysis) (sentiment : SentimentAnalysis)
    (models : ModelPredictions) (prediction : Prediction) (risk : RiskCheck)
    (req : TradeRequest) (signals : List TradingSignal) (now : ℕ) :
    ((makeTradingDecision c safety sentiment models prediction risk req
        signals).1.reason.isUnsafeConditions = true →
      (updateSessionStats
        (makeTradingDecision c safety sentiment models prediction risk req signals).2
        (makeTradingDecision c safety sentiment models prediction risk req signals).1
        now).stats.trades_prevented = c.stats.trades_prevented + 2) ∧
    ((makeTradingDecision c safety sentiment models prediction risk req
        signals).1.execute_trade = false →
      (makeTradingDecision c safety sentiment models prediction risk req
        signals).1.reason.isUnsafeConditions = false →
      (updateSessionStats
        (makeTradingDecision c safety sentiment models prediction risk req signals).2
        (makeTradingDecision c safety sentiment models prediction risk req signals).1
        now).stats.trades_prevented = c.stats.trades_prevented + 1) := by
  have h := makeTradingDecision_stats_characterization c safety sentiment models
    prediction risk req signals
    (makeTradingDecision c safety sentiment models prediction risk req signals).1
    (makeTradingDecision c safety sentiment models prediction risk req signals).2
    rfl
  constructor
  · intro hu
    obtain ⟨hex, h2⟩ := h.1 hu
    rw [h2]
    simp [updateSessionStats, hex]
  · intro hex hu
    rw [h.2 hu]
    simp [updateSessionStats, hex]

/-- C10 witness: concretely, an unsafe-conditions rejection takes
`trades_prevented` from 0 to 2, while a risk-block rejection takes it from
0 to 1. -/
theorem unsafe_rejection_double_counts_witness :
    ((makeTradingDecision initControllerState
        { safeFallback with safe_to_trade := false }
        { market_direction := .bullish, overall_sentiment := 2/5,
          optimal_trading_window := .optimal }
        { ensemble := { confidence := 17/20, contract_type := none, duration := none } }
        { confidence := 9/10 } { allowed := true, reason := .unknown }
        { amount := 1, contract_type := "DIGITEVEN" } []).1.reason.isUnsafeConditions
      = true ∧
     (updateSessionStats
        (makeTradingDecision initControllerState
          { safeFallback with safe_to_trade := false }
          { market_direction := .bullish, overall_sentiment := 2/5,
            optimal_trading_window := .optimal }
          { ensemble := { confidence := 17/20, contract_type := none, duration := none } }
          { confidence := 9/10 } { allowed := true, reason := .unknown }
          { amount := 1, contract_type := "DIGITEVEN" } []).2
        (makeTradingDecision initControllerState
          { safeFallback with safe_to_trade := false }
          { market_direction := .bullish, overall_sentiment := 2/5,
            optimal_trading_window := .optimal }
          { ensemble := { confidence := 17/20, contract_type := none, duration := none } }
          { confidence := 9/10 } { allowed := true, reason := .unknown }
          { amount := 1, contract_type := "DIGITEVEN" } []).1
        0).stats.trades_prevented = initControllerState.stats.trades_prevented + 2) ∧
    ((makeTradingDecision initControllerState safeFallback
        { market_direction := .bullish, overall_sentiment := 2/5,
          optimal_trading_window := .optimal }
        { ensemble := { confidence := 17/20, contract_type := none, duration := none } }
        { confidence := 9/10 } { allowed := false, reason := .maxDrawdownReached }
        { amount := 1, contract_type := "DIGITEVEN" } []).1.execute_trade = false ∧
     (updateSessionStats
        (makeTradingDecision initControllerState safeFallback
          { market_direction := .bullish, overall_sentiment := 2/5,
            optimal_trading_window := .optimal }
          { ensemble := { confidence := 17/20, contract_type := none, duration := none } }
          { confidence := 9/10 } { allowed := false, reason := .maxDrawdownReached }
          { amount := 1, contract_type := "DIGITEVEN" } []).2
        (makeTradingDecision initControllerState safeFallback
          { market_direction := .bullish, overall_sentiment := 2/5,
            optimal_trading_window := .optimal }
          { ensemble := { confidence := 17/20, contract_type := none, duration := none } }
          { confidence := 9/10 } { allowed := false, reason := .maxDrawdownReached }
          { amount := 1, contract_type := "DIGITEVEN" } []).1
        0).stats.trades_prevented = initControllerState.stats.trades_prevented + 1) :=
  ⟨⟨rfl, (unsafe_rejection_double_counts initControllerState
      { safeFallback with safe_to_trade := false }
      { market_direction := .bullish, overall_sentiment := 2/5,
        optimal_trading_window := .optimal }
      { ensemble := { confidence := 17/20, contract_type := none, duration := none } }
      { confidence := 9/10 } { allowed := true, reason := .unknown }
      { amount := 1, contract_type := "DIGITEVEN" } [] 0).1 rfl⟩,
   ⟨rfl, (unsafe_rejection_double_counts initControllerState safeFallback
      { market_direction := .bullish, overall_sentiment := 2/5,
        optimal_trading_window := .optimal }
      { ensemble := { confidence := 17/20, contract_type := none, duration := none } }
      { confidence := 9/10 } { allowed := false, reason := .maxDrawdownReached }
      { amount := 1, contract_type := "DIGITEVEN" } [] 0).2 rfl rfl⟩⟩

lemma addPosition_daily (s : RiskManager.RiskState) (contract_id : String)
    (stake entry_price : ℚ) (contract_type prediction : String) (now : ℕ) :
    (RiskManager.addPosition s contract_id stake entry_price contract_type
      prediction now).daily = s.daily := by
  unfold RiskManager.addPosition
  split <;> rfl

/-- Facts maintained by every reachable `RiskManager` state: the daily start
balance stays at its initial 10000, and the total PnL is zero until the
first closed trade. -/
lemma reachable_daily_invariant {s : RiskManager.RiskState}
    (h : RiskManager.Reachable s) :
    s.daily.daily_start_balance = 10000 ∧
    (s.daily.trades = 0 → s.daily.total_pnl = 0) := by
  induction h with
  | init => exact ⟨rfl, fun _ => rfl⟩
  | add s contract_id stake entry_price contract_type prediction now _ ih =>
      rw [addPosition_daily]
      exact ih
  | close s contract_id pnl status _ ih =>
      unfold RiskManager.closePosition
      split
      · exact ⟨ih.1, fun hz => by simp at hz⟩
      · exact ih

/-- C7 counterexample: closing one position at a 20000 loss is a reachable
state whose drawdown is 200, so the claim's "never exceeds 100" fails. -/
theorem drawdown_exceeds_100_cex :
    RiskManager.Reachable
      (RiskManager.closePosition
        (RiskManager.addPosition RiskManager.initRiskState "c1" 1 100 "DIGITEVEN" "even" 0)
        "c1" (-20000) "lost") ∧
    RiskManager.calculateDrawdown
      (RiskManager.closePosition
        (RiskManager.addPosition RiskManager.initRiskState "c1" 1 100 "DIGITEVEN" "even" 0)
        "c1" (-20000) "lost").daily = 200 ∧
    ¬ (RiskManager.calculateDrawdown
      (RiskManager.closePosition
        (RiskManager.addPosition RiskManager.initRiskState "c1" 1 100 "DIGITEVEN" "even" 0)
        "c1" (-20000) "lost").daily ≤ 100) :=
  ⟨RiskManager.Reachable.close _ _ _ _
      (RiskManager.Reachable.add _ _ _ _ _ _ _ RiskManager.Reachable.init),
   by norm_num [RiskManager.calculateDrawdown, RiskManager.closePosition,
     RiskManager.addPosition, RiskManager.initRiskState, max_def],
   by norm_num [RiskManager.calculateDrawdown, RiskManager.closePosition,
     RiskManager.addPosition, RiskManager.initRiskState, max_def]⟩

/-- C7 (amended): in every reachable `RiskManager` state, the drawdown
computed by `_calculate_drawdown` equals
`max(0, (peakBalance − currentBalance)/peakBalance × 100)` with
`peakBalance = max(dailyStartBalance, dailyStartBalance + totalPnl)`, and it
is always ≥ 0; it is ≤ 100 whenever the current balance is nonnegative
(`totalPnl ≥ −dailyStartBalance`), but it can exceed 100 when cumulative
losses exceed the daily start balance. -/
theorem drawdown_formula_and_bounds {s : RiskManager.RiskState}
    (h : RiskManager.Reachable s) :
    RiskManager.calculateDrawdown s.daily = drawdownSpec s.daily ∧
    0 ≤ RiskManager.calculateDrawdown s.daily ∧
    (-(s.daily.daily_start_balance) ≤ s.daily.total_pnl →
      RiskManager.calculateDrawdown s.daily ≤ 100) := by
  obtain ⟨hstart, htr⟩ := reachable_daily_invariant h
  unfold RiskManager.calculateDrawdown drawdownSpec
  dsimp only
  by_cases hz : s.daily.trades = 0
  · have hpnl : s.daily.total_pnl = 0 := htr hz
    rw [if_pos hz, hstart, hpnl]
    norm_num
  · rw [if_neg hz, hstart]
    have hpk : (if 10000 + s.daily.total_pnl > 10000 then 10000 + s.daily.total_pnl
        else (10000 : ℚ)) = max 10000 (10000 + s.daily.total_pnl) := by
      rcases le_or_lt (10000 + s.daily.total_pnl) 10000 with hle | hlt
      · rw [if_neg (not_lt.mpr hle), max_eq_left hle]
      · rw [if_pos hlt, max_eq_right (le_of_lt hlt)]
    rw [hpk]
    have hpkpos : (0 : ℚ) < max 10000 (10000 + s.daily.total_pnl) :=
      lt_of_lt_of_le (by norm_num) (le_max_left _ _)
    rw [if_neg (ne_of_gt hpkpos)]
    refine ⟨rfl, le_max_left _ _, ?_⟩
    intro hbal
    rcases le_or_lt s.daily.total_pnl 0 with hple | hplt
    · have hmax : max (10000 : ℚ) (10000 + s.daily.total_pnl) = 10000 :=
        max_eq_left (by linarith)
      rw [hmax]
      have harg : (10000 - (10000 + s.daily.total_pnl)) / 10000 * 100 ≤ 100 := by
        rw [div_mul_eq_mul_div, div_le_iff₀ (by norm_num : (0:ℚ) < 10000)]
        linarith
      exact max_le (by norm_num) harg
    · have hmax : max (10000 : ℚ) (10000 + s.daily.total_pnl)
          = 10000 + s.daily.total_pnl := max_eq_right (by linarith)
      rw [hmax]
      have harg : (10000 + s.daily.total_pnl - (10000 + s.daily.total_pnl))
          / (10000 + s.daily.total_pnl) * 100 ≤ 100 := by
        have : (10000 + s.daily.total_pnl - (10000 + s.daily.total_pnl)) = 0 := by ring
        rw [this, zero_div, zero_mul]
        norm_num
      exact max_le (by norm_num) harg

/-- C7 witness: the freshly constructed risk manager satisfies the amended
drawdown facts, with drawdown 0. -/
theorem drawdown_formula_and_bounds_witness :
    RiskManager.Reachable RiskManager.initRiskState ∧
    RiskManager.calculateDrawdown RiskManager.initRiskState.daily
      = drawdownSpec RiskManager.initRiskState.daily ∧
    (-(RiskManager.initRiskState.daily.daily_start_balance)
        ≤ RiskManager.initRiskState.daily.total_pnl →
      RiskManager.calculateDrawdown RiskManager.initRiskState.daily ≤ 100) :=
  ⟨RiskManager.Reachable.init,
   (drawdown_formula_and_bounds RiskManager.Reachable.init).1,
   (drawdown_formula_and_bounds RiskManager.Reachable.init).2.2⟩

/-! ## Stake formula lemmas (C5, C6) -/

/-- On approval the decision's recommended stake is exactly
`_calculate_optimal_stake`'s result. -/
lemma makeTradingDecision_approved_stake
    (c : ControllerState) (safety : SafetyAnalysis) (sentiment : SentimentAnalysis)
    (models : ModelPredictions) (prediction : Prediction) (risk : RiskCheck)
    (req : TradeRequest) (signals : List TradingSignal)
    (d : Decision) (c' : ControllerState)
    (h : makeTradingDecision c safety sentiment models prediction risk req signals
      = (d, c'))
    (ha : d.execute_trade = true) :
    d.recommended_stake
      = calculateOptimalStake c.max_stake safety sentiment prediction req := by
  unfold makeTradingDecision at h
  by_cases g1 : c.is_trading_enabled = false
  · rw [if_pos g1] at h
    injection h with h1 h2; subst h1
    simp [baseDecision] at ha
  · rw [if_neg g1] at h
    by_cases g2 : risk.allowed = false
    · rw [if_pos g2] at h
      injection h with h1 h2; subst h1
      simp [baseDecision] at ha
    · rw [if_neg g2] at h
      by_cases g3 : safety.safe_to_trade = false
      · rw [if_pos g3] at h
        injection h with h1 h2; subst h1
        simp [baseDecision] at ha
      · rw [if_neg g3] at h
        by_cases g4 : safety.safety_score < c.min_safety_score
        · rw [if_pos g4] at h
          injection h with h1 h2; subst h1
          simp [baseDecision] at ha
        · rw [if_neg g4] at h
          by_cases g5 : safety.loss_probability > c.max_loss_probability
          · rw [if_pos g5] at h
            injection h with h1 h2; subst h1
            simp [baseDecision] at ha
          · rw [if_neg g5] at h
            by_cases g6 : safety.profit_probability < c.min_profit_probability
            · rw [if_pos g6] at h
              injection h with h1 h2; subst h1
              simp [baseDecision] at ha
            · rw [if_neg g6] at h
              by_cases g7 : prediction.confidence < c.min_confidence
              · rw [if_pos g7] at h
                injection h with h1 h2; subst h1
                simp [baseDecision] at ha
              · rw [if_neg g7] at h
                by_cases g8 : sentiment.market_direction = .neutral ∧
                    |sentiment.overall_sentiment| < 1/10
                · rw [if_pos g8] at h
                  injection h with h1 h2; subst h1
                  simp [baseDecision] at ha
                · rw [if_neg g8] at h
                  by_cases g9 : c.stats.current_consecutive_losses ≥ 3
                  · rw [if_pos g9] at h
                    injection h with h1 h2; subst h1
                    simp [baseDecision] at ha
                  · rw [if_neg g9] at h
                    by_cases g10 : models.ensemble.confidence < 7/10
                    · rw [if_pos g10] at h
                      injection h with h1 h2; subst h1
                      simp [baseDecision] at ha
                    · rw [if_neg g10] at h
                      by_cases g11 : sentiment.optimal_trading_window
                          = WindowStatus.suboptimal
                      · rw [if_pos g11] at h
                        injection h with h1 h2; subst h1
                        simp [baseDecision] at ha
                      · rw [if_neg g11] at h
                        injection h with h1 h2; subst h1
                        rfl

/-- When all eleven gate checks pass, the trade is approved. -/
lemma makeTradingDecision_all_pass
    (c : ControllerState) (safety : SafetyAnalysis) (sentiment : SentimentAnalysis)
    (models : ModelPredictions) (prediction : Prediction) (risk : RiskCheck)
    (req : TradeRequest) (signals : List TradingSignal)
    (h1 : c.is_trading_enabled = true) (h2 : risk.allowed = true)
    (h3 : safety.safe_to_trade = true)
    (h4 : ¬ safety.safety_score < c.min_safety_score)
    (h5 : ¬ safety.loss_probability > c.max_loss_probability)
    (h6 : ¬ safety.profit_probability < c.min_profit_probability)
    (h7 : ¬ prediction.confidence < c.min_confidence)
    (h8 : ¬ (sentiment.market_direction = .neutral ∧
      |sentiment.overall_sentiment| < 1/10))
    (h9 : ¬ c.stats.current_consecutive_losses ≥ 3)
    (h10 : ¬ models.ensemble.confidence < 7/10)
    (h11 : ¬ sentiment.optimal_trading_window = WindowStatus.suboptimal) :
    (makeTradingDecision c safety sentiment models prediction risk req
      signals).1.execute_trade = true := by
  unfold makeTradingDecision
  rw [if_neg (show ¬ (c.is_trading_enabled = false) by simp [h1]),
    if_neg (show ¬ (risk.allowed = false) by simp [h2]),
    if_neg (show ¬ (safety.safe_to_trade = false) by simp [h3]),
    if_neg h4, if_neg h5, if_neg h6, if_neg h7, if_neg h8, if_neg h9,
    if_neg h10, if_neg h11]

lemma clampRound_le_clampRound (M : ℚ) {a b : ℚ} (h : a ≤ b) :
    roundTo2 (max (min a M) (1/2)) ≤ roundTo2 (max (min b M) (1/2)) :=
  roundTo2_mono (max_le_max (min_le_min h le_rfl) le_rfl)

lemma clampRound_nonpos (M : ℚ) {x : ℚ} (hx : x ≤ 0) :
    max (min x M) (1/2) = (1/2 : ℚ) :=
  max_eq_right (le_trans (min_le_left _ _) (by linarith))

/-- Monotonicity of the clamped-and-rounded stake in one factor of the
product, for an arbitrary (possibly negative) cofactor `k`. -/
lemma stakeFactorMono (M k : ℚ) {x y : ℚ} (hx : 0 ≤ x) (hxy : x ≤ y) :
    roundTo2 (max (min (k * x) M) (1/2))
      ≤ roundTo2 (max (min (k * y) M) (1/2)) := by
  rcases le_or_lt 0 k with hk | hk
  · exact clampRound_le_clampRound M (mul_le_mul_of_nonneg_left hxy hk)
  · have h1 : k * x ≤ 0 := by nlinarith
    have h2 : k * y ≤ 0 := by nlinarith
    rw [clampRound_nonpos M h1, clampRound_nonpos M h2]

/-- C5: for every approved decision, `recommended_stake` equals the
requested stake times the four bounded multipliers (safety 0.5–2.0x,
confidence 0.5–2.0x, sentiment 0.8–1.2x, profit 0.6–1.4x), clamped into
`[0.5, max_stake]` and rounded to 2 decimals; in particular the value lies
within `[0.5, max_stake]` (stated for any cap that is at least 0.5 and is a
whole number of cents, as `Config.MAX_STAKE = 5.0` is). -/
theorem approved_stake_formula_and_bounds
    (c : ControllerState) (safety : SafetyAnalysis) (sentiment : SentimentAnalysis)
    (models : ModelPredictions) (prediction : Prediction) (risk : RiskCheck)
    (req : TradeRequest) (signals : List TradingSignal)
    (hM : 1/2 ≤ c.max_stake) (hMn : ∃ n : ℤ, c.max_stake = (n : ℚ) / 100)
    (happ : (makeTradingDecision c safety sentiment models prediction risk req
      signals).1.execute_trade = true) :
    (makeTradingDecision c safety sentiment models prediction risk req
        signals).1.recommended_stake
      = recommendedStakeSpec c.max_stake safety sentiment prediction req ∧
    1/2 ≤ (makeTradingDecision c safety sentiment models prediction risk req
        signals).1.recommended_stake ∧
    (makeTradingDecision c safety sentiment models prediction risk req
        signals).1.recommended_stake ≤ c.max_stake := by
  rw [makeTradingDecision_approved_stake c safety sentiment models prediction
    risk req signals
    (makeTradingDecision c safety sentiment models prediction risk req signals).1
    (makeTradingDecision c safety sentiment models prediction risk req signals).2
    rfl happ]
  unfold calculateOptimalStake recommendedStakeSpec
  dsimp only
  set P := req.amount * (1/2 + safety.safety_score / 100 * (3/2)) *
    (1/2 + prediction.confidence * (3/2)) *
    (4/5 + |sentiment.overall_sentiment| * (2/5)) *
    (3/5 + safety.profit_probability * (4/5)) with hP
  refine ⟨?_, ?_, ?_⟩
  · have hcl : max (min P c.max_stake) (1/2) = min (max P (1/2)) c.max_stake := by
      rw [min_max_distrib_right, min_eq_left hM]
    rw [hcl]
  · have h50 : ((50 : ℤ) : ℚ) / 100 ≤ max (min P c.max_stake) (1/2) := by
      have : ((50 : ℤ) : ℚ) / 100 = 1/2 := by norm_num
      rw [this]
      exact le_max_right _ _
    have := hundredths_le_roundTo2 h50
    calc (1/2 : ℚ) = ((50 : ℤ) : ℚ) / 100 := by norm_num
      _ ≤ _ := this
  · obtain ⟨n, hn⟩ := hMn
    have harg : max (min P c.max_stake) (1/2) ≤ (n : ℚ) / 100 := by
      rw [← hn]
      exact max_le (min_le_right _ _) hM
    have := roundTo2_le_hundredths harg
    rw [← hn] at this
    exact this

/-- C5 witness: a concrete fully-passing evaluation is approved and its
recommended stake obeys the formula and the `[0.5, max_stake]` bounds. -/
theorem approved_stake_formula_and_bounds_witness :
    (1/2 : ℚ) ≤ initControllerState.max_stake ∧
    (makeTradingDecision initControllerState
      { safe_to_trade := true, safety_score := 75, loss_probability := 1/5,
        profit_probability := 4/5, volatility_score := 30, trend_stability := 70,
        recommendation := .tradeNormally, risk_level := .medium }
      { market_direction := .bullish, overall_sentiment := 2/5,
        optimal_trading_window := .optimal }
      { ensemble := { confidence := 17/20, contract_type := none, duration := none } }
      { confidence := 9/10 } { allowed := true, reason := .unknown }
      { amount := 1, contract_type := "DIGITEVEN" } []).1.execute_trade = true ∧
    (1/2 ≤ (makeTradingDecision initControllerState
      { safe_to_trade := true, safety_score := 75, loss_probability := 1/5,
        profit_probability := 4/5, volatility_score := 30, trend_stability := 70,
        recommendation := .tradeNormally, risk_level := .medium }
      { market_direction := .bullish, overall_sentiment := 2/5,
        optimal_trading_window := .optimal }
      { ensemble := { confidence := 17/20, contract_type := none, duration := none } }
      { confidence := 9/10 } { allowed := true, reason := .unknown }
      { amount := 1, contract_type := "DIGITEVEN" } []).1.recommended_stake ∧
     (makeTradingDecision initControllerState
      { safe_to_trade := true, safety_score := 75, loss_probability := 1/5,
        profit_probability := 4/5, volatility_score := 30, trend_stability := 70,
        recommendation := .tradeNormally, risk_level := .medium }
      { market_direction := .bullish, overall_sentiment := 2/5,
        optimal_trading_window := .optimal }
      { ensemble := { confidence := 17/20, contract_type := none, duration := none } }
      { confidence := 9/10 } { allowed := true, reason := .unknown }
      { amount := 1, contract_type := "DIGITEVEN" } []).1.recommended_stake
        ≤ initControllerState.max_stake) :=
  ⟨by norm_num [initControllerState],
   makeTradingDecision_all_pass initControllerState
      { safe_to_trade := true, safety_score := 75, loss_probability := 1/5,
        profit_probability := 4/5, volatility_score := 30, trend_stability := 70,
        recommendation := .tradeNormally, risk_level := .medium }
      { market_direction := .bullish, overall_sentiment := 2/5,
        optimal_trading_window := .optimal }
      { ensemble := { confidence := 17/20, contract_type := none, duration := none } }
      { confidence := 9/10 } { allowed := true, reason := .unknown }
      { amount := 1, contract_type := "DIGITEVEN" } [] rfl rfl rfl
      (by norm_num [initControllerState]) (by norm_num [initControllerState])
      (by norm_num [initControllerState]) (by norm_num [initControllerState])
      (by decide) (by norm_num [initControllerState, initSessionStats])
      (by norm_num) (by decide),
   (approved_stake_formula_and_bounds initControllerState
      { safe_to_trade := true, safety_score := 75, loss_probability := 1/5,
        profit_probability := 4/5, volatility_score := 30, trend_stability := 70,
        recommendation := .tradeNormally, risk_level := .medium }
      { market_direction := .bullish, overall_sentiment := 2/5,
        optimal_trading_window := .optimal }
      { ensemble := { confidence := 17/20, contract_type := none, duration := none } }
      { confidence := 9/10 } { allowed := true, reason := .unknown }
      { amount := 1, contract_type := "DIGITEVEN" } []
      (by norm_num [initControllerState])
      ⟨500, by norm_num [initControllerState]⟩
      (makeTradingDecision_all_pass initControllerState
      { safe_to_trade := true, safety_score := 75, loss_probability := 1/5,
        profit_probability := 4/5, volatility_score := 30, trend_stability := 70,
        recommendation := .tradeNormally, risk_level := .medium }
      { market_direction := .bullish, overall_sentiment := 2/5,
        optimal_trading_window := .optimal }
      { ensemble := { confidence := 17/20, contract_type := none, duration := none } }
      { confidence := 9/10 } { allowed := true, reason := .unknown }
      { amount := 1, contract_type := "DIGITEVEN" } [] rfl rfl rfl
      (by norm_num [initControllerState]) (by norm_num [initControllerState])
      (by norm_num [initControllerState]) (by norm_num [initControllerState])
      (by decide) (by norm_num [initControllerState, initSessionStats])
      (by norm_num) (by decide))).2⟩

/-- C6: `_calculate_optimal_stake` is monotone non-decreasing separately in
the safety score, the prediction confidence, and the profit probability
(each lying in its natural nonnegative domain), all other inputs held
fixed. -/
theorem stake_monotone_in_each_signal
    (M base sent lp vol ts : ℚ) (st : Bool) (rec : Recommendation)
    (rl : RiskLevel) (md : MarketDirection) (win : WindowStatus) (ct : String)
    (s s' cf cf' pf pf' : ℚ)
    (hs0 : 0 ≤ s) (hss : s ≤ s') (hc0 : 0 ≤ cf) (hcc : cf ≤ cf')
    (hp0 : 0 ≤ pf) (hpp : pf ≤ pf') :
    calculateOptimalStake M ⟨st, s, lp, pf, vol, ts, rec, rl⟩ ⟨md, sent, win⟩
        ⟨cf⟩ ⟨base, ct⟩
      ≤ calculateOptimalStake M ⟨st, s', lp, pf, vol, ts, rec, rl⟩ ⟨md, sent, win⟩
        ⟨cf⟩ ⟨base, ct⟩ ∧
    calculateOptimalStake M ⟨st, s, lp, pf, vol, ts, rec, rl⟩ ⟨md, sent, win⟩
        ⟨cf⟩ ⟨base, ct⟩
      ≤ calculateOptimalStake M ⟨st, s, lp, pf, vol, ts, rec, rl⟩ ⟨md, sent, win⟩
        ⟨cf'⟩ ⟨base, ct⟩ ∧
    calculateOptimalStake M ⟨st, s, lp, pf, vol, ts, rec, rl⟩ ⟨md, sent, win⟩
        ⟨cf⟩ ⟨base, ct⟩
      ≤ calculateOptimalStake M ⟨st, s, lp, pf', vol, ts, rec, rl⟩ ⟨md, sent, win⟩
        ⟨cf⟩ ⟨base, ct⟩ := by
  unfold calculateOptimalStake
  dsimp only
  refine ⟨?_, ?_, ?_⟩
  · have e1 : base * (1/2 + s / 100 * (3/2)) * (1/2 + cf * (3/2)) *
        (4/5 + |sent| * (2/5)) * (3/5 + pf * (4/5))
        = (base * (1/2 + cf * (3/2)) * (4/5 + |sent| * (2/5)) *
          (3/5 + pf * (4/5))) * (1/2 + s / 100 * (3/2)) := by ring
    have e2 : base * (1/2 + s' / 100 * (3/2)) * (1/2 + cf * (3/2)) *
        (4/5 + |sent| * (2/5)) * (3/5 + pf * (4/5))
        = (base * (1/2 + cf * (3/2)) * (4/5 + |sent| * (2/5)) *
          (3/5 + pf * (4/5))) * (1/2 + s' / 100 * (3/2)) := by ring
    rw [e1, e2]
    exact stakeFactorMono M _ (by linarith) (by linarith)
  · have e1 : base * (1/2 + s / 100 * (3/2)) * (1/2 + cf * (3/2)) *
        (4/5 + |sent| * (2/5)) * (3/5 + pf * (4/5))
        = (base * (1/2 + s / 100 * (3/2)) * (4/5 + |sent| * (2/5)) *
          (3/5 + pf * (4/5))) * (1/2 + cf * (3/2)) := by ring
    have e2 : base * (1/2 + s / 100 * (3/2)) * (1/2 + cf' * (3/2)) *
        (4/5 + |sent| * (2/5)) * (3/5 + pf * (4/5))
        = (base * (1/2 + s / 100 * (3/2)) * (4/5 + |sent| * (2/5)) *
          (3/5 + pf * (4/5))) * (1/2 + cf' * (3/2)) := by ring
    rw [e1, e2]
    exact stakeFactorMono M _ (by linarith) (by linarith)
  · have e1 : base * (1/2 + s / 100 * (3/2)) * (1/2 + cf * (3/2)) *
        (4/5 + |sent| * (2/5)) * (3/5 + pf * (4/5))
        = (base * (1/2 + s / 100 * (3/2)) * (1/2 + cf * (3/2)) *
          (4/5 + |sent| * (2/5))) * (3/5 + pf * (4/5)) := by ring
    have e2 : base * (1/2 + s / 100 * (3/2)) * (1/2 + cf * (3/2)) *
        (4/5 + |sent| * (2/5)) * (3/5 + pf' * (4/5))
        = (base * (1/2 + s / 100 * (3/2)) * (1/2 + cf * (3/2)) *
          (4/5 + |sent| * (2/5))) * (3/5 + pf' * (4/5)) := by ring
    rw [e1, e2]
    exact stakeFactorMono M _ (by linarith) (by linarith)

/-- C6 witness: concrete monotonicity instances of the stake computation. -/
theorem stake_monotone_in_each_signal_witness :
    (0 : ℚ) ≤ 50 ∧ (50 : ℚ) ≤ 60 ∧ (0 : ℚ) ≤ 3/5 ∧ (3/5 : ℚ) ≤ 7/10 ∧
    (0 : ℚ) ≤ 11/20 ∧ (11/20 : ℚ) ≤ 4/5 ∧
    calculateOptimalStake 5
        ⟨true, 50, 1/5, 11/20, 30, 70, .tradeNormally, .medium⟩
        ⟨.bullish, 2/5, .optimal⟩ ⟨3/5⟩ ⟨1, "DIGITEVEN"⟩
      ≤ calculateOptimalStake 5
        ⟨true, 60, 1/5, 11/20, 30, 70, .tradeNormally, .medium⟩
        ⟨.bullish, 2/5, .optimal⟩ ⟨3/5⟩ ⟨1, "DIGITEVEN"⟩ :=
  ⟨by norm_num, by norm_num, by norm_num, by norm_num, by norm_num, by norm_num,
   (stake_monotone_in_each_signal 5 1 (2/5) (1/5) 30 70 true .tradeNormally
      .medium .bullish .optimal "DIGITEVEN" 50 60 (3/5) (7/10) (11/20) (4/5)
      (by norm_num) (by norm_num) (by norm_num) (by norm_num) (by norm_num)
      (by norm_num)).1⟩

end Brightways
